import Mathlib

/-!
Shallow embedding of the face-matching attendance tracker
(`api/v1/services/face_service.py`, `api/v1/routes/attendance.py`,
`api/v1/routes/student.py`, and the ORM models under `api/v1/models/`).

Conventions of the embedding:
* Python floats become real numbers (`ℝ`); `np.linalg.norm` becomes
  `Real.sqrt` of the sum of squares.
* Timestamps (`datetime` values) become integer seconds; a `timedelta` of
  `m` minutes is `60 * m` seconds; Python's floor division `//` is
  `Int.fdiv` and the non-negative `timedelta.seconds` field is `Int.emod`
  by `86400`.
* Nullable ORM columns become `Option` fields; Python's `x or 0` on a
  nullable integer column is `Option.getD 0`.
* Each route handler becomes a function from the database state (plus the
  request data and the current instant) to the new database state paired
  with `Except HttpError output`; `HTTPException(...)` raises become
  `Except.error`.  State mutated and committed before a raise (the implicit
  expiry branch) is reflected in the returned state.
* The SQLAlchemy session is created with `autoflush=False`
  (`api/db/database.py`), so queries issued inside a request see only the
  records committed before the request, never the pending `db.add`s of the
  same request.  The recogniser's duplicate check is therefore modelled
  against the records present at the start of the request.
-/

/-- `AttendanceSession.status` values (`att_session.py`). -/
inductive SessionStatus
  | scheduled
  | active
  | completed
  | cancelled
deriving DecidableEq, Repr

/-- A row of the `students` table (`student.py` model). -/
structure StudentRec where
  id : Nat
  matricNo : String
  fullName : String
deriving DecidableEq, Repr

/-- A row of the `student_faces` table (`student_face_record.py`); the
`student` field embeds the ORM relationship to the owning student. -/
structure StudentFace where
  studentId : Nat
  embedding : List ℝ
  imagePath : Option String
  student : StudentRec

/-- A row of the `attendance_sessions` table (`att_session.py`). -/
structure AttendanceSession where
  id : Nat
  title : String
  description : Option String
  courseCode : Option String
  scheduledDuration : Int
  actualDuration : Option Int
  startTime : Option Int
  endTime : Option Int
  status : SessionStatus
  totalStudents : Option Int
  presentCount : Option Int
  lateCount : Option Int
deriving DecidableEq, Repr

/-- A row of the `attendance_records` table (`att_record.py`). -/
structure AttendanceRecord where
  sessionId : Nat
  studentId : Nat
  detectedTime : Option Int
  confidenceScore : Option ℝ
  status : String

/-- The persistent store: the three tables the routes touch, plus the
autoincrement counters backing the `id` primary keys. -/
structure DB where
  sessions : List AttendanceSession
  records : List AttendanceRecord
  students : List StudentRec
  faces : List StudentFace
  nextSessionId : Nat
  nextStudentId : Nat

/-- Error outcomes of a request: `HTTPException`s raised by the routes, the
`TypeError` Python would raise when `start_time` is `None` is added to a
`timedelta`, and the `MultipleResultsFound` that `one_or_none` raises. -/
inductive HttpError
  | notFound (msg : String)
  | badRequest (msg : String)
  | payloadTooLarge (msg : String)
  | typeError
  | multipleResults
deriving DecidableEq, Repr

/- ## Vector arithmetic (`face_service.py`) -/

/-- `np.dot` of two equal-length 1-d arrays. -/
def dotList : List ℝ → List ℝ → ℝ
  | a :: as, b :: bs => a * b + dotList as bs
  | _, _ => 0

/-- Sum of squares of the components. -/
def sumSq (v : List ℝ) : ℝ := (v.map (fun x => x * x)).sum

/-- `np.linalg.norm`: the Euclidean magnitude. -/
noncomputable def npNorm (v : List ℝ) : ℝ := Real.sqrt (sumSq v)

/-- `FaceService.cosine_similarity` (`face_service.py` lines 195-213):
zero magnitude on either side short-circuits to `0.0`; otherwise the
cosine is rescaled into `[0,1]` by `(cos + 1) / 2`. -/
noncomputable def cosine_similarity (vecOne vecTwo : List ℝ) : ℝ :=
  let dotProduct := dotList vecOne vecTwo
  let normOne := npNorm vecOne
  let normTwo := npNorm vecTwo
  if normOne = 0 ∨ normTwo = 0 then 0
  else (dotProduct / (normOne * normTwo) + 1) / 2

/-- Python's `round(x, 4)`.  Python rounds halves to even; this model
rounds halves up — the two agree except on exact ties at the fifth
decimal. -/
noncomputable def pyRound4 (x : ℝ) : ℝ := (round (x * 10000) : ℤ) / 10000

/- ## The matcher (`FaceService.recognize_faces`) -/

/-- One detected face region of the uploaded photo: the bounding box from
`detectMultiScale` and the embedding DeepFace produced for the crop, or
`none` when `get_embedding` raised `ValueError` (the region is skipped). -/
structure FaceRegion where
  x : Int
  y : Int
  w : Int
  h : Int
  embedding : Option (List ℝ)

/-- One entry of the `recognized_students` output list. -/
structure Person where
  studentId : Nat
  matricNo : String
  name : String
  confidence : ℝ
  bbox : Int × Int × Int × Int

/-- The inner loop of `recognize_faces` (lines 167-180): fold over the
registry keeping the best candidate, replacing it only on a strict
increase of the similarity, starting from `(None, 0.0)`. -/
noncomputable def bestOf (embedding : List ℝ) (registry : List StudentFace) :
    Option StudentRec × ℝ :=
  registry.foldl
    (fun best faceRecord =>
      let similarity := cosine_similarity embedding faceRecord.embedding
      if best.2 < similarity then (some faceRecord.student, similarity) else best)
    (none, 0)

/-- `FaceService.recognize_faces` (lines 135-193), with face detection and
embedding extraction (external collaborators) abstracted into the
`regions` input: per region, skip it if embedding failed, otherwise scan
the registry and accept the best candidate only when it exists and its
similarity strictly exceeds `0.6`. -/
noncomputable def recognizeFaces (regions : List FaceRegion)
    (registry : List StudentFace) : List Person :=
  regions.filterMap fun region =>
    match region.embedding with
    | none => none
    | some emb =>
      match bestOf emb registry with
      | (some student, bestSimilarity) =>
        if 0.6 < bestSimilarity then
          some ⟨student.id, student.matricNo, student.fullName,
            pyRound4 bestSimilarity, (region.x, region.y, region.w, region.h)⟩
        else none
      | (none, _) => none

/- ## The attendance routes (`attendance.py`) -/

/-- The body of `POST /sessions` (`SessionCreate` schema). -/
structure SessionCreate where
  title : String
  durationMinutes : Int
  courseCode : Option String
deriving DecidableEq, Repr

/-- The response of `POST /sessions`. -/
structure CreateSessionOutput where
  sessionId : Nat
  title : String
  startTime : Option Int
  scheduledDuration : Int
  status : SessionStatus
deriving DecidableEq, Repr

/-- The response of `POST /sessions/{id}/end`. -/
structure EndSessionOutput where
  sessionId : Nat
  status : SessionStatus
  endTime : Option Int
  actualDuration : Option Int
deriving DecidableEq, Repr

/-- The response of `POST /sessions/{id}/recognize`. -/
structure RecognizeOutput where
  sessionId : Nat
  totalFacesDetected : Nat
  newAttendanceRecords : Nat
  recognizedStudents : List Person
  sessionStatus : SessionStatus
  minutesRemaining : Int

/-- The parts of an `UploadFile` the routes inspect. -/
structure UploadImage where
  size : Nat
  contentTypeImage : Bool
  filename : Option String
deriving DecidableEq, Repr

/-- Apply `g` to the session row whose primary key is `sid` (session ids
are primary keys, so at most one row matches). -/
def updateSession (db : DB) (sid : Nat) (g : AttendanceSession → AttendanceSession) : DB :=
  { db with sessions := db.sessions.map fun x => if x.id == sid then g x else x }

/-- `create_session` (`attendance.py` lines 62-95): a new row with
`status='active'`, `start_time=now`, the column defaults for the
counters, and the next autoincrement id. -/
def create_session (db : DB) (data : SessionCreate) (now : Int) :
    DB × CreateSessionOutput :=
  let session : AttendanceSession :=
    { id := db.nextSessionId
      title := data.title
      description := none
      courseCode := data.courseCode
      scheduledDuration := data.durationMinutes
      actualDuration := none
      startTime := some now
      endTime := none
      status := .active
      totalStudents := some 0
      presentCount := some 0
      lateCount := some 0 }
  ({ db with
      sessions := db.sessions ++ [session]
      nextSessionId := db.nextSessionId + 1 },
   ⟨session.id, session.title, session.startTime, session.scheduledDuration,
    session.status⟩)

/-- `end_session` (`attendance.py` lines 97-128): reject a missing,
already-completed or cancelled session; otherwise stamp `end_time`,
compute `actual_duration = (end_time - start_time) // 60` when
`start_time` is set, and mark the session completed. -/
def end_session (db : DB) (sid : Nat) (now : Int) :
    DB × Except HttpError EndSessionOutput :=
  match db.sessions.find? (fun s => s.id == sid) with
  | none => (db, .error (.notFound "Session not found"))
  | some session =>
    if session.status = .completed then
      (db, .error (.badRequest "Session is already ended"))
    else if session.status = .cancelled then
      (db, .error (.badRequest "Session was cancelled"))
    else
      let dur : Option Int :=
        match session.startTime with
        | some st => some (Int.fdiv (now - st) 60)
        | none => session.actualDuration
      (updateSession db sid fun s =>
        { s with
            status := .completed
            endTime := some now
            actualDuration :=
              match s.startTime with
              | some st => some (Int.fdiv (now - st) 60)
              | none => s.actualDuration },
       .ok ⟨sid, .completed, some now, dur⟩)

/-- One attendance record as built in the recogniser loop
(`attendance.py` lines 190-198). -/
noncomputable def mkRecord (sid : Nat) (now : Int) (p : Person) : AttendanceRecord :=
  ⟨sid, p.studentId, some now, some p.confidence, "present"⟩

/-- Does `r` record attendance of student `stid` in session `sid`? -/
def isRecordFor (sid stid : Nat) (r : AttendanceRecord) : Bool :=
  r.sessionId == sid && r.studentId == stid

/-- One iteration of the record-creation loop (`attendance.py` lines
183-199): query the committed records for an existing record
(`autoflush=False`: the pending adds of this very request are invisible
to the query) and create a pending record unless one exists. -/
noncomputable def recStep (sid : Nat) (now : Int) (committed : List AttendanceRecord)
    (acc : List AttendanceRecord × List Person) (person : Person) :
    List AttendanceRecord × List Person :=
  if committed.any (isRecordFor sid person.studentId) then acc
  else (acc.1 ++ [mkRecord sid now person], acc.2 ++ [person])

/-- The record-creation loop (`attendance.py` lines 181-199): returns the
pending records and the `new_records` list. -/
noncomputable def recordLoop (sid : Nat) (now : Int)
    (committed : List AttendanceRecord) (recognized : List Person) :
    List AttendanceRecord × List Person :=
  recognized.foldl (recStep sid now committed) ([], [])

/-- The state change of a successful recognition request
(`attendance.py` lines 173-205): run the matcher, run the record loop
against the committed records, append the pending records, and bump
`present_count` by the number of new records when there are any.
Returns the new state, the new-record count, and the recognised list. -/
noncomputable def applyRecognition (db : DB) (sid : Nat) (now : Int)
    (regions : List FaceRegion) : DB × Nat × List Person :=
  let recognized := recognizeFaces regions db.faces
  let looped := recordLoop sid now db.records recognized
  let db1 : DB := { db with records := db.records ++ looped.1 }
  let db2 : DB :=
    if looped.2.isEmpty then db1
    else updateSession db1 sid fun s =>
      { s with presentCount := some (s.presentCount.getD 0 + looped.2.length) }
  (db2, looped.2.length, recognized)

/-- `recognize_and_record` (`attendance.py` lines 131-216).  The face
pipeline inputs are abstracted: `decoded` is `none` when
`bytes_to_cv2`/`recognize_faces` raised `ValueError`, otherwise the
detected regions with their embeddings.  Step order follows the source:
active-session lookup, expiry check (committing `status='completed'`
before raising), size check, content-type check, face processing, the
record loop, and the `present_count` update. -/
noncomputable def recognize_and_record (db : DB) (sid : Nat) (now : Int)
    (image : UploadImage) (decoded : Option (List FaceRegion)) :
    DB × Except HttpError RecognizeOutput :=
  match db.sessions.find? (fun s => s.id == sid && decide (s.status = .active)) with
  | none => (db, .error (.notFound "Session not found or not active"))
  | some session =>
    match session.startTime with
    | none => (db, .error .typeError)
    | some st =>
      let seshEndTime := st + 60 * session.scheduledDuration
      if seshEndTime < now then
        (updateSession db sid (fun s => { s with status := .completed }),
         .error (.badRequest "Session has ended"))
      else if 2 ^ 22 < image.size then
        (db, .error (.payloadTooLarge "Image too large. Maximum 4MB."))
      else if !image.contentTypeImage then
        (db, .error (.badRequest "File must be an image"))
      else
        match decoded with
        | none => (db, .error (.badRequest "Face processing failed"))
        | some regions =>
          let applied := applyRecognition db sid now regions
          (applied.1, .ok
            ⟨sid, applied.2.2.length, applied.2.1, applied.2.2, session.status,
             max 0 (Int.fdiv (Int.emod (seshEndTime - now) 86400) 60)⟩)

/- ## The registration route (`student.py`) -/

/-- The form data and file of `POST /register`, with the face pipeline
abstracted: `embedding` is `none` when `process_image_bytes` raised
`ValueError`. -/
structure RegisterInput where
  matricNo : String
  fullName : String
  email : Option String
  dept : Option String
  contentTypeImage : Bool
  size : Nat
  filename : Option String
  embedding : Option (List ℝ)

/-- The response of `POST /register` (`StudentRegisterRequest`). -/
structure RegisterOutput where
  matricNo : String
  fullName : String
  email : Option String
  dept : Option String
deriving DecidableEq, Repr

/-- `BaseModel.fetch_unique` specialised to students filtered by
`matric_no`: `one_or_none` returns the single match, `None` when there is
none, and raises `MultipleResultsFound` otherwise. -/
def fetchUniqueStudent (students : List StudentRec) (m : String) :
    Except HttpError (Option StudentRec) :=
  match students.filter (fun s => s.matricNo == m) with
  | [] => .ok none
  | [s] => .ok (some s)
  | _ => .error .multipleResults

/-- `BaseModel.fetch_unique` specialised to `StudentFace` filtered by
`student_id`. -/
def fetchUniqueFace (faces : List StudentFace) (stid : Nat) :
    Except HttpError (Option StudentFace) :=
  match faces.filter (fun f => f.studentId == stid) with
  | [] => .ok none
  | [f] => .ok (some f)
  | _ => .error .multipleResults

/-- Steps 6-7 of `register_student_face` (`student.py` lines 63-72): fetch
the student's existing `StudentFace` row; overwrite its embedding and
image path in place when it exists, insert a fresh row otherwise. -/
def registerFace (db1 : DB) (student : StudentRec) (emb : List ℝ)
    (path : Option String) (out : RegisterOutput) :
    DB × Except HttpError RegisterOutput :=
  match fetchUniqueFace db1.faces student.id with
  | .error e => (db1, .error e)
  | .ok (some _) =>
    ({ db1 with
        faces := db1.faces.map fun g =>
          if g.studentId == student.id then
            { g with embedding := emb, imagePath := path }
          else g },
     .ok out)
  | .ok none =>
    ({ db1 with faces := db1.faces ++ [⟨student.id, emb, path, student⟩] },
     .ok out)

/-- `register_student_face` (`student.py` lines 12-80): validate content
type then size, extract the embedding, fetch the student by `matric_no`
(creating one with the next autoincrement id when absent), then store the
face template through `registerFace`. -/
def register_student_face (db : DB) (inp : RegisterInput) :
    DB × Except HttpError RegisterOutput :=
  if !inp.contentTypeImage then
    (db, .error (.badRequest "Uploaded file must be an image (JPEG, PNG, etc.)"))
  else if 2 ^ 22 < inp.size then
    (db, .error (.payloadTooLarge "Image too large. Maximum size is 4MB."))
  else
    match inp.embedding with
    | none => (db, .error (.badRequest "Face processing failed"))
    | some emb =>
      match fetchUniqueStudent db.students inp.matricNo with
      | .error e => (db, .error e)
      | .ok (some student) =>
        registerFace db student emb inp.filename
          ⟨inp.matricNo, inp.fullName, inp.email, inp.dept⟩
      | .ok none =>
        let student : StudentRec := ⟨db.nextStudentId, inp.matricNo, inp.fullName⟩
        registerFace
          { db with
              students := db.students ++ [student]
              nextStudentId := db.nextStudentId + 1 }
          student emb inp.filename
          ⟨inp.matricNo, inp.fullName, inp.email, inp.dept⟩

/- ## Vector-arithmetic lemmas -/

theorem dotList_self (a : List ℝ) : dotList a a = sumSq a := by
  induction a with
  | nil => simp [dotList, sumSq]
  | cons x t ih => simp [dotList, sumSq] at ih ⊢; rw [ih]

theorem sumSq_nonneg (a : List ℝ) : 0 ≤ sumSq a := by
  refine List.sum_nonneg ?_
  intro x hx
  rcases List.mem_map.mp hx with ⟨y, _, rfl⟩
  exact mul_self_nonneg y

theorem dotList_map_neg (a b : List ℝ) :
    dotList a (b.map fun r => -r) = -dotList a b := by
  induction a generalizing b with
  | nil => cases b <;> simp [dotList]
  | cons x t ih =>
    cases b with
    | nil => simp [dotList]
    | cons y u => simp only [List.map_cons, dotList, ih]; ring

theorem sumSq_cons (x : ℝ) (t : List ℝ) : sumSq (x :: t) = x * x + sumSq t := by
  simp [sumSq]

theorem sumSq_map_neg (a : List ℝ) : sumSq (a.map fun r => -r) = sumSq a := by
  induction a with
  | nil => simp
  | cons x t ih => rw [List.map_cons, sumSq_cons, sumSq_cons, ih, neg_mul_neg]

theorem npNorm_eq_zero (a : List ℝ) : npNorm a = 0 ↔ sumSq a = 0 :=
  Real.sqrt_eq_zero (sumSq_nonneg a)

theorem npNorm_mul_self (a : List ℝ) : npNorm a * npNorm a = sumSq a :=
  Real.mul_self_sqrt (sumSq_nonneg a)

theorem cosine_similarity_self (a : List ℝ) (h : npNorm a ≠ 0) :
    cosine_similarity a a = 1 := by
  unfold cosine_similarity
  rw [if_neg (by tauto)]
  rw [dotList_self, npNorm_mul_self]
  have hs : sumSq a ≠ 0 := fun hz => h ((npNorm_eq_zero a).mpr hz)
  rw [div_self hs]
  norm_num

theorem cosine_similarity_neg_self (a : List ℝ) (h : npNorm a ≠ 0) :
    cosine_similarity a (a.map fun r => -r) = 0 := by
  unfold cosine_similarity
  have hnn : npNorm (a.map fun r => -r) = npNorm a := by
    unfold npNorm; rw [sumSq_map_neg]
  rw [hnn, if_neg (by tauto)]
  rw [dotList_map_neg, dotList_self, npNorm_mul_self]
  have hs : sumSq a ≠ 0 := fun hz => h ((npNorm_eq_zero a).mpr hz)
  rw [neg_div, div_self hs]
  norm_num

/-- C5: for every embedding of nonzero magnitude, the normalized cosine
similarity of `a` with itself is exactly `1` and with `-a` is exactly `0`
(the model works over `ℝ`, so "within floating tolerance" becomes exact
equality). -/
theorem matcher_similarity_self_and_opposite (a : List ℝ) (h : npNorm a ≠ 0) :
    cosine_similarity a a = 1 ∧ cosine_similarity a (a.map fun r => -r) = 0 :=
  ⟨cosine_similarity_self a h, cosine_similarity_neg_self a h⟩

theorem sumSq_pair (x y : ℝ) : sumSq [x, y] = x * x + y * y := by
  simp [sumSq]

theorem npNorm34_ne_zero : npNorm [(3 : ℝ), 4] ≠ 0 := by
  rw [Ne, npNorm_eq_zero, sumSq_pair]
  norm_num

/-- Witness for C5 at `a = [3, 4]`. -/
theorem matcher_similarity_self_and_opposite_witness :
    npNorm [(3 : ℝ), 4] ≠ 0 ∧
      cosine_similarity [(3 : ℝ), 4] [(3 : ℝ), 4] = 1 ∧
      cosine_similarity [(3 : ℝ), 4] ([(3 : ℝ), 4].map fun r => -r) = 0 :=
  ⟨npNorm34_ne_zero,
   (matcher_similarity_self_and_opposite _ npNorm34_ne_zero).1,
   (matcher_similarity_self_and_opposite _ npNorm34_ne_zero).2⟩

/-- C6: whenever either input has zero magnitude, `cosine_similarity`
returns exactly `0` (the division by the product of the norms is guarded
and never reached). -/
theorem cosine_similarity_zero_norm (a b : List ℝ)
    (h : npNorm a = 0 ∨ npNorm b = 0) : cosine_similarity a b = 0 := by
  unfold cosine_similarity
  rw [if_pos h]

/-- Witness for C6 at `a = [0, 0]`, `b = [1, 2]`. -/
theorem cosine_similarity_zero_norm_witness :
    (npNorm [(0 : ℝ), 0] = 0 ∨ npNorm [(1 : ℝ), 2] = 0) ∧
      cosine_similarity [(0 : ℝ), 0] [(1 : ℝ), 2] = 0 := by
  have h0 : npNorm [(0 : ℝ), 0] = 0 := by
    rw [npNorm_eq_zero, sumSq_pair]; norm_num
  exact ⟨Or.inl h0, cosine_similarity_zero_norm _ _ (Or.inl h0)⟩

/- ## Concrete registry entries used by the witnesses -/

def studentC : StudentRec := ⟨10, "MAT100", "Ada"⟩

def faceC : StudentFace := ⟨10, [(3 : ℝ), 4], some "p.jpg", studentC⟩

def studentD : StudentRec := ⟨20, "MAT200", "Grace"⟩

def faceD : StudentFace := ⟨20, [(0 : ℝ), 1], none, studentD⟩

theorem npNorm10 : npNorm [(1 : ℝ), 0] = 1 := by
  unfold npNorm
  rw [sumSq_pair, show (1 : ℝ) * 1 + 0 * 0 = 1 by norm_num, Real.sqrt_one]

theorem npNorm01 : npNorm [(0 : ℝ), 1] = 1 := by
  unfold npNorm
  rw [sumSq_pair, show (0 : ℝ) * 0 + 1 * 1 = 1 by norm_num, Real.sqrt_one]

theorem cos_orth : cosine_similarity [(1 : ℝ), 0] [(0 : ℝ), 1] = 1 / 2 := by
  simp only [cosine_similarity]
  rw [npNorm10, npNorm01, if_neg (by norm_num)]
  simp only [dotList]
  norm_num

theorem bestOf_D : bestOf [(1 : ℝ), 0] [faceD] = (some studentD, 1 / 2) := by
  simp only [bestOf, List.foldl_cons, List.foldl_nil, faceD, cos_orth]
  rw [if_pos (by norm_num : ((none : Option StudentRec), (0 : ℝ)).2 < 1 / 2)]

theorem cos_self34 : cosine_similarity [(3 : ℝ), 4] [(3 : ℝ), 4] = 1 :=
  cosine_similarity_self _ npNorm34_ne_zero

theorem bestOf_C : bestOf [(3 : ℝ), 4] [faceC] = (some studentC, 1) := by
  simp only [bestOf, List.foldl_cons, List.foldl_nil, faceC, cos_self34]
  rw [if_pos (by norm_num : ((none : Option StudentRec), (0 : ℝ)).2 < 1)]

/-- C4: a detected face whose best similarity against the registry is at
or below the `0.6` threshold is silently excluded from the result list —
no match, no error. -/
theorem matcher_rejects_at_or_below_threshold (x y w h : ℤ) (emb : List ℝ)
    (reg : List StudentFace) (hle : (bestOf emb reg).2 ≤ 0.6) :
    recognizeFaces [⟨x, y, w, h, some emb⟩] reg = [] := by
  unfold recognizeFaces
  rw [List.filterMap_cons]
  rcases hbo : bestOf emb reg with ⟨bm, bs⟩
  rw [hbo] at hle
  simp only at hle
  cases bm with
  | none => simp [hbo]
  | some st =>
    simp only [hbo]
    rw [if_neg (not_lt.mpr hle)]
    simp

/-- Witness for C4: the query `[1, 0]` against a registry whose single
entry is the orthogonal `[0, 1]` has best similarity `1/2 ≤ 0.6` and is
excluded. -/
theorem matcher_rejects_witness :
    (bestOf [(1 : ℝ), 0] [faceD]).2 ≤ 0.6 ∧
      recognizeFaces [⟨0, 0, 10, 10, some [(1 : ℝ), 0]⟩] [faceD] = [] := by
  have hle : (bestOf [(1 : ℝ), 0] [faceD]).2 ≤ 0.6 := by
    rw [bestOf_D]; norm_num
  exact ⟨hle, matcher_rejects_at_or_below_threshold 0 0 10 10 _ _ hle⟩

/-- C7: the best candidate is replaced only on a strict improvement of
the similarity, so an entry appended later whose similarity ties (or
loses against) the incumbent never displaces it — ties resolve to the
candidate encountered first in iteration order. -/
theorem matcher_tie_keeps_first (emb : List ℝ) (reg : List StudentFace)
    (fr : StudentFace)
    (h : cosine_similarity emb fr.embedding ≤ (bestOf emb reg).2) :
    bestOf emb (reg ++ [fr]) = bestOf emb reg := by
  have hsplit : bestOf emb (reg ++ [fr]) =
      (if (bestOf emb reg).2 < cosine_similarity emb fr.embedding then
        (some fr.student, cosine_similarity emb fr.embedding)
      else bestOf emb reg) := by
    unfold bestOf
    rw [List.foldl_append]
    rfl
  rw [hsplit, if_neg (not_lt.mpr h)]

/-- Witness for C7: two identical registry entries both at similarity `1`
against the query; the first one wins. -/
theorem matcher_tie_witness :
    cosine_similarity [(3 : ℝ), 4] faceC.embedding ≤ (bestOf [(3 : ℝ), 4] [faceC]).2 ∧
      bestOf [(3 : ℝ), 4] ([faceC] ++ [faceC]) = bestOf [(3 : ℝ), 4] [faceC] := by
  have h : cosine_similarity [(3 : ℝ), 4] faceC.embedding ≤ (bestOf [(3 : ℝ), 4] [faceC]).2 := by
    rw [show faceC.embedding = [(3 : ℝ), 4] from rfl, cos_self34, bestOf_C]
  exact ⟨h, matcher_tie_keeps_first _ _ _ h⟩


/- ## Session-lookup lemmas -/

theorem find?_map_update (l : List AttendanceSession) (sid : Nat)
    (g : AttendanceSession → AttendanceSession) (hg : ∀ s, (g s).id = s.id) :
    (l.map fun x => if x.id == sid then g x else x).find? (fun x => x.id == sid) =
      (l.find? fun x => x.id == sid).map g := by
  induction l with
  | nil => simp
  | cons a t ih =>
    by_cases h : (a.id == sid) = true
    · have hga : ((g a).id == sid) = true := by rw [hg a]; exact h
      rw [List.map_cons, if_pos h]
      simp only [List.find?, hga, h, Option.map_some']
    · have h' : (a.id == sid) = false := by simpa using h
      rw [List.map_cons, if_neg h]
      simp only [List.find?, h']
      exact ih

theorem find?_active_of_find? (l : List AttendanceSession) (sid : Nat)
    (s : AttendanceSession)
    (h : l.find? (fun x => x.id == sid) = some s) (hs : s.status = .active) :
    l.find? (fun x => x.id == sid && decide (x.status = .active)) = some s := by
  induction l with
  | nil => simp at h
  | cons a t ih =>
    by_cases ha : (a.id == sid) = true
    · simp [List.find?, ha] at h
      subst h
      simp [List.find?, ha, hs]
    · have ha' : (a.id == sid) = false := by simpa using ha
      simp only [List.find?, ha'] at h
      simp only [List.find?, ha', Bool.false_and]
      exact ih h

theorem updateSession_find? (db : DB) (sid : Nat)
    (g : AttendanceSession → AttendanceSession) (s : AttendanceSession)
    (h : db.sessions.find? (fun x => x.id == sid) = some s)
    (hg : ∀ s, (g s).id = s.id) :
    (updateSession db sid g).sessions.find? (fun x => x.id == sid) = some (g s) := by
  show (db.sessions.map _).find? _ = _
  rw [find?_map_update _ _ _ hg, h, Option.map_some']

/-- The branch `end_session` takes on a non-terminal session. -/
theorem end_session_ok_eq (db : DB) (sid : Nat) (now : Int)
    (s : AttendanceSession)
    (h : db.sessions.find? (fun x => x.id == sid) = some s)
    (hc : s.status ≠ .completed) (hx : s.status ≠ .cancelled) :
    end_session db sid now =
      (updateSession db sid fun x =>
        { x with
            status := .completed
            endTime := some now
            actualDuration :=
              match x.startTime with
              | some st => some (Int.fdiv (now - st) 60)
              | none => x.actualDuration },
       .ok ⟨sid, .completed, some now,
         match s.startTime with
         | some st => some (Int.fdiv (now - st) 60)
         | none => s.actualDuration⟩) := by
  simp only [end_session, h]
  rw [if_neg hc, if_neg hx]

/-- The branch `recognize_and_record` takes on an active but expired
session: mark it completed, commit, raise `400 "Session has ended"`. -/
theorem recognize_expired_eq (db : DB) (sid : Nat) (now : Int)
    (img : UploadImage) (dec : Option (List FaceRegion))
    (s : AttendanceSession) (st : Int)
    (h : db.sessions.find? (fun x => x.id == sid) = some s)
    (hact : s.status = .active) (hst : s.startTime = some st)
    (hexp : st + 60 * s.scheduledDuration < now) :
    recognize_and_record db sid now img dec =
      (updateSession db sid (fun x => { x with status := .completed }),
       .error (.badRequest "Session has ended")) := by
  simp only [recognize_and_record, find?_active_of_find? _ _ _ h hact, hst]
  rw [if_pos hexp]

/- ## Concrete database used by the witnesses: one active session created
with `duration_minutes = 45`, started at instant `0`. -/

def sC : AttendanceSession :=
  ⟨1, "CSC101 - Week 5", none, some "CSC101", 45, none, some 0, none,
   .active, some 0, some 0, some 0⟩

def db0 : DB := ⟨[sC], [], [studentC], [faceC], 2, 11⟩

def imgC : UploadImage := ⟨100, true, some "class.jpg"⟩

/- ## C8: ending an already-terminal session -/

/-- C8: ending a session that is already completed or cancelled is
rejected with a conflict error and leaves the whole database state
unchanged. -/
theorem end_session_conflict (db : DB) (sid : Nat) (now : Int)
    (s : AttendanceSession)
    (h : db.sessions.find? (fun x => x.id == sid) = some s)
    (hs : s.status = .completed ∨ s.status = .cancelled) :
    (end_session db sid now).1 = db ∧
      ∃ m, (end_session db sid now).2 = .error (.badRequest m) := by
  rcases hs with hs | hs
  · have he : end_session db sid now =
        (db, .error (.badRequest "Session is already ended")) := by
      simp only [end_session, h]
      rw [if_pos hs]
    rw [he]
    exact ⟨rfl, "Session is already ended", rfl⟩
  · have hne : s.status ≠ .completed := by rw [hs]; intro hc; cases hc
    have he : end_session db sid now =
        (db, .error (.badRequest "Session was cancelled")) := by
      simp only [end_session, h]
      rw [if_neg hne, if_pos hs]
    rw [he]
    exact ⟨rfl, "Session was cancelled", rfl⟩

def sDone : AttendanceSession := { sC with status := .completed }

def dbDone : DB := ⟨[sDone], [], [studentC], [faceC], 2, 11⟩

/-- Witness for C8: the second `end` call on a just-completed session is
rejected and changes nothing. -/
theorem end_session_conflict_witness :
    dbDone.sessions.find? (fun x => x.id == 1) = some sDone ∧
      (sDone.status = .completed ∨ sDone.status = .cancelled) ∧
      (end_session dbDone 1 5000).1 = dbDone ∧
      ∃ m, (end_session dbDone 1 5000).2 = .error (.badRequest m) := by
  have h1 : dbDone.sessions.find? (fun x => x.id == 1) = some sDone := rfl
  have h2 : sDone.status = .completed ∨ sDone.status = .cancelled := Or.inl rfl
  exact ⟨h1, h2, (end_session_conflict _ _ _ _ h1 h2).1,
    (end_session_conflict _ _ _ _ h1 h2).2⟩

/- ## C2 (amended) and C3: transitions to `completed` -/

/-- C2 as amended: only the explicit end action stamps `end_time` and
computes `actual_duration = (end_time - start_time) // 60`; the implicit
expiry discovered by a recognition request flips the status to
`completed` but leaves `end_time` and `actual_duration` untouched. -/
theorem completed_transition_stamps (db : DB) (sid : Nat) (now : Int)
    (img : UploadImage) (dec : Option (List FaceRegion))
    (s : AttendanceSession) (st : Int)
    (h : db.sessions.find? (fun x => x.id == sid) = some s)
    (hst : s.startTime = some st) :
    (s.status ≠ .completed → s.status ≠ .cancelled →
      ∃ s₂, (end_session db sid now).1.sessions.find? (fun x => x.id == sid) = some s₂ ∧
        s₂.status = .completed ∧ s₂.endTime = some now ∧
        s₂.actualDuration = some (Int.fdiv (now - st) 60)) ∧
    (s.status = .active → st + 60 * s.scheduledDuration < now →
      ∃ s₂, (recognize_and_record db sid now img dec).1.sessions.find?
          (fun x => x.id == sid) = some s₂ ∧
        s₂.status = .completed ∧ s₂.endTime = s.endTime ∧
        s₂.actualDuration = s.actualDuration) := by
  constructor
  · intro hc hx
    rw [end_session_ok_eq db sid now s h hc hx]
    refine ⟨_, updateSession_find? db sid _ s h (fun _ => rfl), rfl, rfl, ?_⟩
    show (match s.startTime with
      | some st => some (Int.fdiv (now - st) 60)
      | none => s.actualDuration) = some (Int.fdiv (now - st) 60)
    rw [hst]
  · intro hact hexp
    rw [recognize_expired_eq db sid now img dec s st h hact hst hexp]
    exact ⟨_, updateSession_find? db sid _ s h (fun _ => rfl), rfl, rfl, rfl⟩

/-- Witness for C2 (amended): the explicit end at `now = 2760` of the
session started at `0` stamps `end_time = 2760` and computes
`actual_duration = 46`; the recognition request that discovers the expiry
flips the status but stamps nothing. -/
theorem completed_transition_stamps_witness :
    db0.sessions.find? (fun x => x.id == 1) = some sC ∧ sC.startTime = some 0 ∧
      (∃ s₂, (end_session db0 1 2760).1.sessions.find? (fun x => x.id == 1) = some s₂ ∧
        s₂.status = .completed ∧ s₂.endTime = some 2760 ∧
        s₂.actualDuration = some 46) ∧
      (∃ s₂, (recognize_and_record db0 1 2760 imgC none).1.sessions.find?
          (fun x => x.id == 1) = some s₂ ∧
        s₂.status = .completed ∧ s₂.endTime = sC.endTime ∧
        s₂.actualDuration = sC.actualDuration) := by
  have h : db0.sessions.find? (fun x => x.id == 1) = some sC := rfl
  have hst : sC.startTime = some 0 := rfl
  have hmain := completed_transition_stamps db0 1 2760 imgC none sC 0 h hst
  have h46 : Int.fdiv ((2760 : ℤ) - 0) 60 = 46 := by decide
  refine ⟨h, hst, ?_, hmain.2 rfl (by decide)⟩
  rcases hmain.1 (by intro hc; cases hc) (by intro hc; cases hc) with
    ⟨s₂, hf, hs1, hs2, hs3⟩
  exact ⟨s₂, hf, hs1, hs2, by rw [hs3, h46]⟩

/-- C2 counterexample: the claim says `end_time` is stamped and
`actual_duration` computed on *every* transition to `completed`, but the
recognition request at `now = 2760` (46 minutes into the 45-minute
session started at `0`) completes the session with `end_time` and
`actual_duration` both still unset. -/
theorem completed_transition_counterexample :
    sC.status = .active ∧
      (recognize_and_record db0 1 2760 imgC none).1.sessions.find?
          (fun x => x.id == 1) = some { sC with status := .completed } ∧
      ({ sC with status := .completed } : AttendanceSession).endTime = none ∧
      ({ sC with status := .completed } : AttendanceSession).actualDuration = none := by
  refine ⟨rfl, ?_, rfl, rfl⟩
  rw [recognize_expired_eq db0 1 2760 imgC none sC 0 rfl rfl rfl (by decide)]
  exact updateSession_find? db0 1 _ sC rfl (fun _ => rfl)

/-- C3: a recognition request against an active session whose window has
passed is rejected with the single terminal "Session has ended" error;
the only state change of that very request is the status flip to
`completed` — no records are created and `present_count` is untouched. -/
theorem expired_recognition_rejected (db : DB) (sid : Nat) (now : Int)
    (img : UploadImage) (dec : Option (List FaceRegion))
    (s : AttendanceSession) (st : Int)
    (h : db.sessions.find? (fun x => x.id == sid) = some s)
    (hact : s.status = .active) (hst : s.startTime = some st)
    (hexp : st + 60 * s.scheduledDuration < now) :
    (recognize_and_record db sid now img dec).2 =
      .error (.badRequest "Session has ended") ∧
    (recognize_and_record db sid now img dec).1.records = db.records ∧
    ∃ s₂, (recognize_and_record db sid now img dec).1.sessions.find?
        (fun x => x.id == sid) = some s₂ ∧
      s₂.status = .completed ∧ s₂.presentCount = s.presentCount := by
  rw [recognize_expired_eq db sid now img dec s st h hact hst hexp]
  exact ⟨rfl, rfl, _, updateSession_find? db sid _ s h (fun _ => rfl), rfl, rfl⟩

/-- Witness for C3 at the spec's scenario: a 45-minute session started at
`0`, recognition at `2760` seconds (46 minutes in). -/
theorem expired_recognition_rejected_witness :
    db0.sessions.find? (fun x => x.id == 1) = some sC ∧
      (0 : ℤ) + 60 * sC.scheduledDuration < 2760 ∧
      (recognize_and_record db0 1 2760 imgC none).2 =
        .error (.badRequest "Session has ended") ∧
      (recognize_and_record db0 1 2760 imgC none).1.records = db0.records ∧
      ∃ s₂, (recognize_and_record db0 1 2760 imgC none).1.sessions.find?
          (fun x => x.id == 1) = some s₂ ∧
        s₂.status = .completed ∧ s₂.presentCount = sC.presentCount := by
  have hmain := expired_recognition_rejected db0 1 2760 imgC none sC 0 rfl rfl rfl (by decide)
  exact ⟨rfl, by decide, hmain.1, hmain.2.1, hmain.2.2⟩

/- ## Record-loop lemmas -/

theorem recStep_skip (sid : Nat) (now : Int) (committed : List AttendanceRecord)
    (acc : List AttendanceRecord × List Person) (p : Person)
    (h : committed.any (isRecordFor sid p.studentId) = true) :
    recStep sid now committed acc p = acc := by
  unfold recStep
  rw [if_pos h]

theorem foldl_recStep_all_dup (sid : Nat) (now : Int)
    (committed : List AttendanceRecord) (l : List Person)
    (h : ∀ p ∈ l, committed.any (isRecordFor sid p.studentId) = true) :
    ∀ acc, l.foldl (recStep sid now committed) acc = acc := by
  induction l with
  | nil => intro acc; rfl
  | cons p t ih =>
    intro acc
    rw [List.foldl_cons, recStep_skip _ _ _ _ _ (h p (List.mem_cons_self p t))]
    exact ih (fun q hq => h q (List.mem_cons_of_mem _ hq)) acc

theorem foldl_recStep_all_fresh (sid : Nat) (now : Int)
    (committed : List AttendanceRecord) (l : List Person)
    (h : ∀ p ∈ l, committed.any (isRecordFor sid p.studentId) = false) :
    ∀ a b, l.foldl (recStep sid now committed) (a, b) =
      (a ++ l.map (mkRecord sid now), b ++ l) := by
  induction l with
  | nil => intro a b; simp
  | cons p t ih =>
    intro a b
    have hp := h p (List.mem_cons_self p t)
    have hstep : recStep sid now committed (a, b) p =
        (a ++ [mkRecord sid now p], b ++ [p]) := by
      unfold recStep
      rw [if_neg (by simp [hp])]
    rw [List.foldl_cons, hstep, ih (fun q hq => h q (List.mem_cons_of_mem _ hq))]
    simp

theorem recordLoop_all_fresh (sid : Nat) (now : Int)
    (committed : List AttendanceRecord) (l : List Person)
    (h : ∀ p ∈ l, committed.any (isRecordFor sid p.studentId) = false) :
    recordLoop sid now committed l = (l.map (mkRecord sid now), l) := by
  unfold recordLoop
  rw [foldl_recStep_all_fresh _ _ _ _ h]
  simp

theorem recordLoop_all_dup (sid : Nat) (now : Int)
    (committed : List AttendanceRecord) (l : List Person)
    (h : ∀ p ∈ l, committed.any (isRecordFor sid p.studentId) = true) :
    recordLoop sid now committed l = ([], []) :=
  foldl_recStep_all_dup sid now committed l h ([], [])

theorem filter_studentId_length (l : List Person) (p : Person)
    (hpw : l.Pairwise fun a b => a.studentId ≠ b.studentId) (hp : p ∈ l) :
    (l.filter fun q => q.studentId == p.studentId).length = 1 := by
  induction l with
  | nil => cases hp
  | cons a t ih =>
    rw [List.pairwise_cons] at hpw
    rcases List.mem_cons.mp hp with rfl | hpt
    · rw [List.filter_cons_of_pos (by simp)]
      have hnil : (t.filter fun q => q.studentId == p.studentId) = [] := by
        rw [List.filter_eq_nil_iff]
        intro q hq
        simp only [beq_iff_eq]
        exact fun hqp => (hpw.1 q hq) hqp.symm
      rw [hnil]
      rfl
    · rw [List.filter_cons_of_neg (by simp only [beq_iff_eq]; exact hpw.1 p hpt)]
      exact ih hpw.2 hpt

theorem mkRecord_count (sid : Nat) (now : Int) (l : List Person) (p : Person)
    (hpw : l.Pairwise fun a b => a.studentId ≠ b.studentId) (hp : p ∈ l) :
    ((l.map (mkRecord sid now)).filter (isRecordFor sid p.studentId)).length = 1 := by
  rw [List.filter_map, List.length_map]
  rw [List.filter_congr
    (fun q _ => by simp [isRecordFor, mkRecord, Function.comp] :
      ∀ q ∈ l, (isRecordFor sid p.studentId ∘ mkRecord sid now) q =
        (q.studentId == p.studentId))]
  exact filter_studentId_length l p hpw hp

theorem any_mkRecord_mem (sid : Nat) (now : Int)
    (committed : List AttendanceRecord) (l : List Person) (p : Person) (hp : p ∈ l) :
    (committed ++ l.map (mkRecord sid now)).any (isRecordFor sid p.studentId) = true := by
  rw [List.any_append, Bool.or_eq_true]
  right
  rw [List.any_eq_true]
  exact ⟨mkRecord sid now p, List.mem_map_of_mem _ hp, by simp [isRecordFor, mkRecord]⟩

/- ## The success branch of `recognize_and_record` -/

theorem recognize_live_eq (db : DB) (sid : Nat) (now : Int) (img : UploadImage)
    (regions : List FaceRegion) (s : AttendanceSession) (st : Int)
    (h : db.sessions.find? (fun x => x.id == sid) = some s)
    (hact : s.status = .active) (hst : s.startTime = some st)
    (hexp : ¬ st + 60 * s.scheduledDuration < now)
    (hsize : ¬ 2 ^ 22 < img.size) (hct : img.contentTypeImage = true) :
    recognize_and_record db sid now img (some regions) =
      ((applyRecognition db sid now regions).1, .ok
        ⟨sid, (applyRecognition db sid now regions).2.2.length,
         (applyRecognition db sid now regions).2.1,
         (applyRecognition db sid now regions).2.2, s.status,
         max 0 (Int.fdiv (Int.emod (st + 60 * s.scheduledDuration - now) 86400) 60)⟩) := by
  simp only [recognize_and_record, find?_active_of_find? _ _ _ h hact, hst]
  rw [if_neg hexp, if_neg hsize, if_neg (by rw [hct]; simp)]

theorem applyRecognition_eq_of_loop (db : DB) (sid : Nat) (now : Int)
    (regions : List FaceRegion) (pend : List AttendanceRecord) (newz : List Person)
    (hl : recordLoop sid now db.records (recognizeFaces regions db.faces) =
      (pend, newz)) :
    applyRecognition db sid now regions =
      (if newz.isEmpty then { db with records := db.records ++ pend }
       else updateSession { db with records := db.records ++ pend } sid fun s =>
         { s with presentCount := some (s.presentCount.getD 0 + newz.length) },
       newz.length, recognizeFaces regions db.faces) := by
  simp only [applyRecognition]
  rw [hl]

/- ## C1 (amended): idempotent re-submission of the same photo -/

/-- C1 as amended: for a live session, when the photo's recognised
identities are pairwise distinct and not yet recorded, submitting it
creates exactly one record per recognised (session, student) pair and
grows `present_count` by exactly the number of new records; re-submitting
the same photo succeeds without error and changes nothing — every
recognised student is skipped because a committed record now exists.
(Without the distinctness proviso the claim fails: the duplicate check
consults only records committed before the request.) -/
theorem same_photo_twice_idempotent
    (db : DB) (sid : Nat) (now now2 : Int) (img : UploadImage)
    (regions : List FaceRegion) (s : AttendanceSession) (st : Int)
    (recognized : List Person) (db1 : DB)
    (hrec : recognized = recognizeFaces regions db.faces)
    (h : db.sessions.find? (fun x => x.id == sid) = some s)
    (hact : s.status = .active) (hst : s.startTime = some st)
    (hexp : ¬ st + 60 * s.scheduledDuration < now)
    (hexp2 : ¬ st + 60 * s.scheduledDuration < now2)
    (hsize : ¬ 2 ^ 22 < img.size) (hct : img.contentTypeImage = true)
    (hfresh : ∀ p ∈ recognized, db.records.filter (isRecordFor sid p.studentId) = [])
    (hpw : recognized.Pairwise fun a b => a.studentId ≠ b.studentId)
    (hdb1 : db1 = (recognize_and_record db sid now img (some regions)).1) :
    (∃ out, (recognize_and_record db sid now img (some regions)).2 = .ok out) ∧
    db1.records = db.records ++ recognized.map (mkRecord sid now) ∧
    (∀ p ∈ recognized, (db1.records.filter (isRecordFor sid p.studentId)).length = 1) ∧
    (∃ s₂, db1.sessions.find? (fun x => x.id == sid) = some s₂ ∧
      s₂.presentCount.getD 0 = s.presentCount.getD 0 + recognized.length) ∧
    (recognize_and_record db1 sid now2 img (some regions)).1 = db1 ∧
    (∃ out, (recognize_and_record db1 sid now2 img (some regions)).2 = .ok out) := by
  have hfresh' : ∀ p ∈ recognized,
      db.records.any (isRecordFor sid p.studentId) = false := by
    intro p hp
    rw [List.any_eq_false]
    intro r hr
    have := List.filter_eq_nil_iff.mp (hfresh p hp) r hr
    simpa using this
  have hl1 : recordLoop sid now db.records (recognizeFaces regions db.faces) =
      (recognized.map (mkRecord sid now), recognized) := by
    rw [← hrec]
    exact recordLoop_all_fresh _ _ _ _ hfresh'
  have happly1 := applyRecognition_eq_of_loop db sid now regions _ _ hl1
  have hr1 := recognize_live_eq db sid now img regions s st h hact hst hexp hsize hct
  have hdb1' : db1 =
      (if recognized.isEmpty then
        { db with records := db.records ++ recognized.map (mkRecord sid now) }
      else updateSession
        { db with records := db.records ++ recognized.map (mkRecord sid now) } sid
        fun x => { x with
          presentCount := some (x.presentCount.getD 0 + recognized.length) }) := by
    rw [hdb1, hr1]
    show (applyRecognition db sid now regions).1 = _
    rw [happly1]
  have hrecords : db1.records = db.records ++ recognized.map (mkRecord sid now) := by
    rw [hdb1']
    split <;> rfl
  have hfaces : db1.faces = db.faces := by
    rw [hdb1']
    split <;> rfl
  have hcount : ∀ p ∈ recognized,
      (db1.records.filter (isRecordFor sid p.studentId)).length = 1 := by
    intro p hp
    rw [hrecords, List.filter_append, hfresh p hp, List.nil_append]
    exact mkRecord_count sid now recognized p hpw hp
  have hsess : ∃ s₂, db1.sessions.find? (fun x => x.id == sid) = some s₂ ∧
      s₂.status = .active ∧ s₂.startTime = some st ∧
      s₂.scheduledDuration = s.scheduledDuration ∧
      s₂.presentCount.getD 0 = s.presentCount.getD 0 + recognized.length := by
    rw [hdb1']
    by_cases hemp : recognized.isEmpty = true
    · rw [if_pos hemp]
      refine ⟨s, h, hact, hst, rfl, ?_⟩
      rw [List.isEmpty_iff.mp hemp]
      simp
    · rw [if_neg hemp]
      exact ⟨_, updateSession_find? _ sid _ s h (fun _ => rfl), hact, hst, rfl, rfl⟩
  obtain ⟨s₂, hf2, hact2, hst2, hdur2, hpc2⟩ := hsess
  have hexp2' : ¬ st + 60 * s₂.scheduledDuration < now2 := by
    rw [hdur2]; exact hexp2
  have hdup : ∀ p ∈ recognizeFaces regions db1.faces,
      db1.records.any (isRecordFor sid p.studentId) = true := by
    rw [hfaces, ← hrec]
    intro p hp
    rw [hrecords]
    exact any_mkRecord_mem sid now db.records recognized p hp
  have hl2 : recordLoop sid now2 db1.records (recognizeFaces regions db1.faces) =
      ([], []) := recordLoop_all_dup _ _ _ _ hdup
  have happly2 := applyRecognition_eq_of_loop db1 sid now2 regions _ _ hl2
  have hr2 := recognize_live_eq db1 sid now2 img regions s₂ st hf2 hact2 hst2 hexp2'
    hsize hct
  have hsame : (applyRecognition db1 sid now2 regions).1 = db1 := by
    rw [happly2]
    simp only [List.isEmpty_nil, if_true, List.append_nil]
  refine ⟨⟨_, by rw [hr1]⟩, hrecords, hcount, ⟨s₂, hf2, hpc2⟩, ?_, ⟨_, by rw [hr2]⟩⟩
  rw [hr2]
  exact hsame

/- ## Concrete photo evaluations -/

def regionC : FaceRegion := ⟨0, 0, 160, 160, some [(3 : ℝ), 4]⟩

noncomputable def personC : Person := ⟨10, "MAT100", "Ada", pyRound4 1, (0, 0, 160, 160)⟩

theorem recognizeFaces_one : recognizeFaces [regionC] [faceC] = [personC] := by
  unfold recognizeFaces
  rw [List.filterMap_cons]
  simp only [regionC, bestOf_C, List.filterMap_nil]
  rw [if_pos (by norm_num : (0.6 : ℝ) < 1)]
  rfl

theorem recognizeFaces_two :
    recognizeFaces [regionC, regionC] [faceC] = [personC, personC] := by
  unfold recognizeFaces
  rw [List.filterMap_cons, List.filterMap_cons]
  simp only [regionC, bestOf_C, List.filterMap_nil]
  rw [if_pos (by norm_num : (0.6 : ℝ) < 1)]
  rfl

/-- Witness for C1 (amended): one student registered with embedding
`[3, 4]`, one matching face region, session live at both submissions. -/
theorem same_photo_twice_idempotent_witness :
    ((recognize_and_record db0 1 60 imgC (some [regionC])).1.records.filter
        (isRecordFor 1 10)).length = 1 ∧
    (recognize_and_record (recognize_and_record db0 1 60 imgC (some [regionC])).1
        1 120 imgC (some [regionC])).1 =
      (recognize_and_record db0 1 60 imgC (some [regionC])).1 ∧
    ∃ s₂, (recognize_and_record db0 1 60 imgC (some [regionC])).1.sessions.find?
        (fun x => x.id == 1) = some s₂ ∧ s₂.presentCount.getD 0 = 1 := by
  have hrec : [personC] = recognizeFaces [regionC] db0.faces := by
    rw [show db0.faces = [faceC] from rfl, recognizeFaces_one]
  have hmain := same_photo_twice_idempotent db0 1 60 120 imgC [regionC] sC 0
    [personC] _ hrec rfl rfl rfl (by decide) (by decide) (by decide) rfl
    (fun p _ => rfl) (by simp) rfl
  obtain ⟨_, _, hcount, ⟨s₂, hf2, hpc⟩, hsame, _⟩ := hmain
  refine ⟨?_, hsame, ⟨s₂, hf2, ?_⟩⟩
  · exact hcount personC (by simp)
  · simpa [sC] using hpc

/-- C1 counterexample: a photo in which two face regions are both
recognised as student `10` (both embeddings equal the registered
template) is submitted twice against a live session; the final state has
TWO AttendanceRecords for the single recognised (session, student) pair
`(1, 10)` and `present_count = 2`, refuting "exactly one AttendanceRecord
per recognized (session, student) pair" and "present_count incremented
exactly once". -/
theorem same_photo_twice_counterexample :
    recognizeFaces [regionC, regionC] db0.faces = [personC, personC] ∧
    personC.studentId = 10 ∧
    (((recognize_and_record
        (recognize_and_record db0 1 60 imgC (some [regionC, regionC])).1
        1 120 imgC (some [regionC, regionC])).1.records.filter
          (isRecordFor 1 10)).length = 2 ∧
    ∃ s₂, (recognize_and_record
        (recognize_and_record db0 1 60 imgC (some [regionC, regionC])).1
        1 120 imgC (some [regionC, regionC])).1.sessions.find?
          (fun x => x.id == 1) = some s₂ ∧ s₂.presentCount = some 2) := by
  have hrec2 : recognizeFaces [regionC, regionC] db0.faces = [personC, personC] := by
    rw [show db0.faces = [faceC] from rfl, recognizeFaces_two]
  have hl1 : recordLoop 1 60 db0.records (recognizeFaces [regionC, regionC] db0.faces) =
      ([personC, personC].map (mkRecord 1 60), [personC, personC]) := by
    rw [hrec2]
    exact recordLoop_all_fresh _ _ _ _ (fun p _ => rfl)
  have happly1 := applyRecognition_eq_of_loop db0 1 60 [regionC, regionC] _ _ hl1
  have hr1 := recognize_live_eq db0 1 60 imgC [regionC, regionC] sC 0 rfl rfl rfl
    (by decide) (by decide) rfl
  have hd1' : (recognize_and_record db0 1 60 imgC (some [regionC, regionC])).1 =
      updateSession
        { db0 with records := db0.records ++ [personC, personC].map (mkRecord 1 60) } 1
        (fun x => { x with presentCount := some (x.presentCount.getD 0 + 2) }) := by
    rw [hr1]
    show (applyRecognition db0 1 60 [regionC, regionC]).1 = _
    rw [happly1]
    rw [if_neg (by simp)]
    rfl
  have hd1records : (recognize_and_record db0 1 60 imgC (some [regionC, regionC])).1.records =
      [mkRecord 1 60 personC, mkRecord 1 60 personC] := by
    rw [hd1']
    rfl
  have hd1find : (recognize_and_record db0 1 60 imgC (some [regionC, regionC])).1.sessions.find?
      (fun x => x.id == 1) = some { sC with presentCount := some 2 } := by
    rw [hd1']
    exact updateSession_find? _ 1 _ sC rfl (fun _ => rfl)
  have hface1 : (recognize_and_record db0 1 60 imgC (some [regionC, regionC])).1.faces =
      db0.faces := by
    rw [hd1']
    rfl
  have hdup : ∀ p ∈ recognizeFaces [regionC, regionC]
      (recognize_and_record db0 1 60 imgC (some [regionC, regionC])).1.faces,
      (recognize_and_record db0 1 60 imgC (some [regionC, regionC])).1.records.any
        (isRecordFor 1 p.studentId) = true := by
    rw [hface1, hrec2]
    intro p hp
    rw [hd1records]
    have hpc : p = personC := by
      rcases List.mem_cons.mp hp with h | h
      · exact h
      · simpa using h
    subst hpc
    rfl
  have hl2 := recordLoop_all_dup 1 120 _ _ hdup
  have happly2 := applyRecognition_eq_of_loop
    (recognize_and_record db0 1 60 imgC (some [regionC, regionC])).1 1 120
    [regionC, regionC] _ _ hl2
  have hr2 := recognize_live_eq
    (recognize_and_record db0 1 60 imgC (some [regionC, regionC])).1 1 120 imgC
    [regionC, regionC] { sC with presentCount := some 2 } 0 hd1find rfl rfl
    (by decide) (by decide) rfl
  have hsame : (recognize_and_record
      (recognize_and_record db0 1 60 imgC (some [regionC, regionC])).1
      1 120 imgC (some [regionC, regionC])).1 =
      (recognize_and_record db0 1 60 imgC (some [regionC, regionC])).1 := by
    rw [hr2]
    show (applyRecognition _ 1 120 [regionC, regionC]).1 = _
    rw [happly2]
    simp only [List.isEmpty_nil, if_true, List.append_nil]
  refine ⟨hrec2, rfl, ?_, ?_⟩
  · rw [hsame, hd1records]
    rfl
  · rw [hsame]
    exact ⟨_, hd1find, rfl⟩

/- ## C9: one face template per student -/

/-- The invariant backed by the `unique=True` constraint on
`StudentFace.student_id` (`student_face_record.py` line 16). -/
def FacesUnique (faces : List StudentFace) : Prop :=
  faces.Pairwise fun a b => a.studentId ≠ b.studentId

theorem fetchUniqueFace_ok_none (faces : List StudentFace) (stid : Nat) :
    fetchUniqueFace faces stid = .ok none ↔
      faces.filter (fun f => f.studentId == stid) = [] := by
  unfold fetchUniqueFace
  rcases h : faces.filter (fun f => f.studentId == stid) with _ | ⟨f, _ | ⟨g, t⟩⟩ <;>
    rw [h] <;> simp [h]

theorem facesUnique_map (faces : List StudentFace) (u : StudentFace → StudentFace)
    (hu : ∀ f, (u f).studentId = f.studentId) (h : FacesUnique faces) :
    FacesUnique (faces.map u) :=
  List.Pairwise.map u (fun a b hab => by rw [hu, hu]; exact hab) h

theorem facesUnique_append_one (faces : List StudentFace) (nf : StudentFace)
    (h : FacesUnique faces) (hnot : ∀ f ∈ faces, f.studentId ≠ nf.studentId) :
    FacesUnique (faces ++ [nf]) := by
  rw [FacesUnique, List.pairwise_append]
  refine ⟨h, List.pairwise_singleton _ _, ?_⟩
  intro a ha b hb
  have : b = nf := by simpa using hb
  subst this
  exact hnot a ha

theorem registerFace_facesUnique (db1 : DB) (student : StudentRec) (emb : List ℝ)
    (path : Option String) (out : RegisterOutput) (hu : FacesUnique db1.faces) :
    FacesUnique (registerFace db1 student emb path out).1.faces := by
  unfold registerFace
  rcases hf : fetchUniqueFace db1.faces student.id with e | (_ | f)
  · exact hu
  · apply facesUnique_append_one _ _ hu
    intro f hfem
    have := List.filter_eq_nil_iff.mp ((fetchUniqueFace_ok_none _ _).mp hf) f hfem
    simpa using this
  · exact facesUnique_map _ _ (fun g => by split <;> rfl) hu

theorem registerFace_sessions (db1 : DB) (student : StudentRec) (emb : List ℝ)
    (path : Option String) (out : RegisterOutput) :
    (registerFace db1 student emb path out).1.sessions = db1.sessions := by
  unfold registerFace
  rcases hf : fetchUniqueFace db1.faces student.id with e | (_ | f) <;> rfl

theorem registerFace_overwrite (db1 : DB) (student : StudentRec) (emb : List ℝ)
    (path : Option String) (out : RegisterOutput) (f : StudentFace)
    (hf : db1.faces.filter (fun g => g.studentId == student.id) = [f]) :
    (registerFace db1 student emb path out).1.faces =
      (db1.faces.map fun g =>
        if g.studentId == student.id then
          { g with embedding := emb, imagePath := path }
        else g) ∧
    (registerFace db1 student emb path out).2 = .ok out := by
  have hconv : fetchUniqueFace db1.faces student.id = .ok (some f) := by
    unfold fetchUniqueFace
    rw [hf]
  unfold registerFace
  rw [hconv]
  exact ⟨rfl, rfl⟩

theorem register_existing_eq (db : DB) (inp : RegisterInput) (emb : List ℝ)
    (s : StudentRec)
    (hct : inp.contentTypeImage = true) (hsize : ¬ 2 ^ 22 < inp.size)
    (hemb : inp.embedding = some emb)
    (hs : db.students.filter (fun x => x.matricNo == inp.matricNo) = [s]) :
    register_student_face db inp =
      registerFace db s emb inp.filename
        ⟨inp.matricNo, inp.fullName, inp.email, inp.dept⟩ := by
  have hstu : fetchUniqueStudent db.students inp.matricNo = .ok (some s) := by
    unfold fetchUniqueStudent
    rw [hs]
  unfold register_student_face
  rw [if_neg (by rw [hct]; simp), if_neg hsize]
  simp only [hemb, hstu]

/-- C9: every registration preserves the at-most-one-template-per-student
invariant, and registering a face for a student who already has one
overwrites the existing `StudentFace` row in place — the table does not
grow and the student's row now carries the new embedding and image path. -/
theorem one_template_per_student (db : DB) (inp : RegisterInput)
    (hu : FacesUnique db.faces) :
    FacesUnique (register_student_face db inp).1.faces ∧
    ∀ (s : StudentRec) (f : StudentFace) (emb : List ℝ),
      inp.contentTypeImage = true → ¬ 2 ^ 22 < inp.size →
      inp.embedding = some emb →
      db.students.filter (fun x => x.matricNo == inp.matricNo) = [s] →
      db.faces.filter (fun g => g.studentId == s.id) = [f] →
      (register_student_face db inp).1.faces.length = db.faces.length ∧
      (∃ out, (register_student_face db inp).2 = .ok out) ∧
      ∀ g ∈ (register_student_face db inp).1.faces, g.studentId = s.id →
        g.embedding = emb ∧ g.imagePath = inp.filename := by
  constructor
  · unfold register_student_face
    split
    · exact hu
    · split
      · exact hu
      · split
        · exact hu
        · split
          · exact hu
          · exact registerFace_facesUnique _ _ _ _ _ hu
          · exact registerFace_facesUnique _ _ _ _ _ hu
  · intro s f emb hct hsize hemb hs hf
    rw [register_existing_eq db inp emb s hct hsize hemb hs]
    obtain ⟨hfaces, hok⟩ := registerFace_overwrite db s emb inp.filename
      ⟨inp.matricNo, inp.fullName, inp.email, inp.dept⟩ f hf
    refine ⟨by rw [hfaces, List.length_map], ⟨_, hok⟩, ?_⟩
    intro g hg hgid
    rw [hfaces] at hg
    rcases List.mem_map.mp hg with ⟨g0, hg0, rfl⟩
    by_cases h0 : (g0.studentId == s.id) = true
    · rw [if_pos h0]
      exact ⟨rfl, rfl⟩
    · rw [if_neg h0] at hgid
      exact absurd hgid (by simpa using h0)

def inpC : RegisterInput :=
  ⟨"MAT100", "Ada", none, none, true, 100, some "new.jpg", some [(1 : ℝ), 2]⟩

/-- Witness for C9: re-registering student `10` (who owns `faceC`)
replaces the template in place. -/
theorem one_template_per_student_witness :
    FacesUnique db0.faces ∧
      FacesUnique (register_student_face db0 inpC).1.faces ∧
      (register_student_face db0 inpC).1.faces.length = db0.faces.length ∧
      ∀ g ∈ (register_student_face db0 inpC).1.faces, g.studentId = studentC.id →
        g.embedding = [(1 : ℝ), 2] ∧ g.imagePath = some "new.jpg" := by
  have hu : FacesUnique db0.faces := by
    simp [FacesUnique, db0]
  have hmain := one_template_per_student db0 inpC hu
  have hpart := hmain.2 studentC faceC [(1 : ℝ), 2] rfl (by decide) rfl
    (by decide) rfl
  exact ⟨hu, hmain.1, hpart.1, hpart.2.2⟩

/- ## C10: the `scheduled` state is unreachable through the routes -/

theorem register_sessions (db : DB) (inp : RegisterInput) :
    (register_student_face db inp).1.sessions = db.sessions := by
  unfold register_student_face
  split
  · rfl
  · split
    · rfl
    · split
      · rfl
      · split
        · rfl
        · exact registerFace_sessions _ _ _ _ _
        · exact registerFace_sessions _ _ _ _ _

theorem applyRecognition_sessions_cases (db : DB) (sid : Nat) (now : Int)
    (regions : List FaceRegion) :
    (applyRecognition db sid now regions).1.sessions = db.sessions ∨
    ∃ n : ℤ, (applyRecognition db sid now regions).1.sessions =
      db.sessions.map (fun x => if x.id == sid then
        { x with presentCount := some (x.presentCount.getD 0 + n) } else x) := by
  unfold applyRecognition updateSession
  dsimp only
  split
  · left; rfl
  · right; exact ⟨_, rfl⟩

theorem recognize_sessions_cases (db : DB) (sid : Nat) (now : Int)
    (img : UploadImage) (dec : Option (List FaceRegion)) :
    (recognize_and_record db sid now img dec).1.sessions = db.sessions ∨
    (recognize_and_record db sid now img dec).1.sessions =
      db.sessions.map (fun x => if x.id == sid then
        { x with status := SessionStatus.completed } else x) ∨
    ∃ n : ℤ, (recognize_and_record db sid now img dec).1.sessions =
      db.sessions.map (fun x => if x.id == sid then
        { x with presentCount := some (x.presentCount.getD 0 + n) } else x) := by
  unfold recognize_and_record
  split
  · left; rfl
  · split
    · left; rfl
    · dsimp only
      split
      · right; left; rfl
      · split
        · left; rfl
        · split
          · left; rfl
          · split
            · left; rfl
            · rcases applyRecognition_sessions_cases db sid now _ with hc | ⟨n, hc⟩
              · left; exact hc
              · right; right; exact ⟨n, hc⟩

theorem end_session_sessions_cases (db : DB) (sid : Nat) (now : Int) :
    (end_session db sid now).1.sessions = db.sessions ∨
    (end_session db sid now).1.sessions =
      db.sessions.map (fun x => if x.id == sid then
        { x with
            status := SessionStatus.completed
            endTime := some now
            actualDuration :=
              match x.startTime with
              | some st => some (Int.fdiv (now - st) 60)
              | none => x.actualDuration } else x) := by
  unfold end_session
  split
  · left; rfl
  · split
    · left; rfl
    · split
      · left; rfl
      · right; rfl

theorem noScheduled_map (l : List AttendanceSession) (sid : Nat)
    (g : AttendanceSession → AttendanceSession)
    (hg : ∀ x, (g x).status = SessionStatus.completed ∨ (g x).status = x.status)
    (h : ∀ s ∈ l, s.status ≠ SessionStatus.scheduled) :
    ∀ s' ∈ l.map (fun x => if x.id == sid then g x else x),
      s'.status ≠ SessionStatus.scheduled := by
  intro s' hs'
  rcases List.mem_map.mp hs' with ⟨x, hx, rfl⟩
  by_cases hid : (x.id == sid) = true
  · rw [if_pos hid]
    rcases hg x with hgx | hgx <;> rw [hgx]
    · intro hc; cases hc
    · exact h x hx
  · rw [if_neg hid]
    exact h x hx

theorem no_activation_map (l : List AttendanceSession) (sid : Nat)
    (g : AttendanceSession → AttendanceSession)
    (hgid : ∀ x, (g x).id = x.id)
    (hgs : ∀ x, (g x).status = SessionStatus.completed ∨ (g x).status = x.status) :
    ∀ s' ∈ l.map (fun x => if x.id == sid then g x else x),
      s'.status = SessionStatus.active →
        ∃ s ∈ l, s.id = s'.id ∧ s.status = SessionStatus.active := by
  intro s' hs' hact
  rcases List.mem_map.mp hs' with ⟨x, hx, rfl⟩
  by_cases hid : (x.id == sid) = true
  · rw [if_pos hid] at hact ⊢
    rcases hgs x with hgx | hgx
    · rw [hgx] at hact; cases hact
    · exact ⟨x, hx, (hgid x).symm, by rw [← hgx]; exact hact⟩
  · rw [if_neg hid] at hact ⊢
    exact ⟨x, hx, rfl, hact⟩

/-- C10: `create_session` appends a session that is born `active` with
`start_time = now`; every route preserves "no session is `scheduled`";
and no route ever turns a non-active session active (the only
status-writing operations set `completed`), so both the `scheduled` state
and the scheduled-to-active transition are unreachable through the public
operations. -/
theorem sessions_start_active (db : DB) (data : SessionCreate) (cnow : Int)
    (sid : Nat) (enow rnow : Int) (img : UploadImage)
    (dec : Option (List FaceRegion)) (inp : RegisterInput)
    (hns : ∀ s ∈ db.sessions, s.status ≠ SessionStatus.scheduled) :
    (∃ sNew, (create_session db data cnow).1.sessions = db.sessions ++ [sNew] ∧
      sNew.status = .active ∧ sNew.startTime = some cnow) ∧
    (create_session db data cnow).2.status = .active ∧
    (∀ s ∈ (create_session db data cnow).1.sessions,
      s.status ≠ SessionStatus.scheduled) ∧
    (∀ s ∈ (end_session db sid enow).1.sessions,
      s.status ≠ SessionStatus.scheduled) ∧
    (∀ s ∈ (recognize_and_record db sid rnow img dec).1.sessions,
      s.status ≠ SessionStatus.scheduled) ∧
    (∀ s ∈ (register_student_face db inp).1.sessions,
      s.status ≠ SessionStatus.scheduled) ∧
    (∀ s' ∈ (end_session db sid enow).1.sessions, s'.status = .active →
      ∃ s ∈ db.sessions, s.id = s'.id ∧ s.status = .active) ∧
    (∀ s' ∈ (recognize_and_record db sid rnow img dec).1.sessions,
      s'.status = .active →
        ∃ s ∈ db.sessions, s.id = s'.id ∧ s.status = .active) ∧
    (register_student_face db inp).1.sessions = db.sessions := by
  refine ⟨⟨_, rfl, rfl, rfl⟩, rfl, ?_, ?_, ?_, ?_, ?_, ?_, register_sessions db inp⟩
  · intro s hs
    rcases List.mem_append.mp hs with hs | hs
    · exact hns s hs
    · have hseq := List.mem_singleton.mp hs
      subst hseq
      intro hc
      cases hc
  · rcases end_session_sessions_cases db sid enow with hc | hc <;> rw [hc]
    · exact hns
    · exact noScheduled_map _ _ _ (fun x => Or.inl rfl) hns
  · rcases recognize_sessions_cases db sid rnow img dec with hc | hc | ⟨n, hc⟩ <;>
      rw [hc]
    · exact hns
    · exact noScheduled_map _ _ _ (fun x => Or.inl rfl) hns
    · exact noScheduled_map _ _ _ (fun x => Or.inr rfl) hns
  · rw [register_sessions db inp]
    exact hns
  · rcases end_session_sessions_cases db sid enow with hc | hc <;> rw [hc]
    · intro s' hs' hact
      exact ⟨s', hs', rfl, hact⟩
    · exact no_activation_map _ _ _ (fun x => rfl) (fun x => Or.inl rfl)
  · rcases recognize_sessions_cases db sid rnow img dec with hc | hc | ⟨n, hc⟩ <;>
      rw [hc]
    · intro s' hs' hact
      exact ⟨s', hs', rfl, hact⟩
    · exact no_activation_map _ _ _ (fun x => rfl) (fun x => Or.inl rfl)
    · exact no_activation_map _ _ _ (fun x => rfl) (fun x => Or.inr rfl)

/-- Witness for C10 on the concrete store: creating a 30-minute session
at instant `10` and touching the store with the other routes. -/
theorem sessions_start_active_witness :
    (∀ s ∈ db0.sessions, s.status ≠ SessionStatus.scheduled) ∧
      (∃ sNew, (create_session db0 ⟨"T2", 30, none⟩ 10).1.sessions =
          db0.sessions ++ [sNew] ∧
        sNew.status = .active ∧ sNew.startTime = some 10) ∧
      (∀ s' ∈ (recognize_and_record db0 1 60 imgC none).1.sessions,
        s'.status = .active →
          ∃ s ∈ db0.sessions, s.id = s'.id ∧ s.status = .active) := by
  have hns : ∀ s ∈ db0.sessions, s.status ≠ SessionStatus.scheduled := by decide
  have hmain := sessions_start_active db0 ⟨"T2", 30, none⟩ 10 1 60 60 imgC none inpC hns
  exact ⟨hns, hmain.1, hmain.2.2.2.2.2.2.2.1⟩
